import Mathlib

/-!
# Verification of the mining-dashboard acquisition/economics core

Shallow embedding, in Lean 4, of the pricing, aggregation, normalization and
caching logic of `src/server.js` (Jack's Mining Dashboard).  JavaScript
numbers are modelled as rationals (`ℚ`), absent (`undefined`/`null`) values
as `Option`, and the JavaScript `||` default idiom (which treats `0` as
falsy) by explicit helpers below.  Raw protocol responses are modelled as
association lists from field names to numeric values, which covers every
input the claims quantify over (the source additionally guards each access
with `typeof value === 'number'`, which is identically true on such maps).
-/

/-- JavaScript `a || b` where `a` is a possibly-absent number and the result
is a number: `undefined`, `null` and `0` fall through to the default. -/
def jsOrV (a : Option ℚ) (b : ℚ) : ℚ :=
  match a with
  | some x => if x = 0 then b else x
  | none => b

/-- JavaScript `a || b` where both sides are possibly-absent numbers:
`undefined`/`null`/`0` on the left falls through to the right operand. -/
def jsOr2 (a b : Option ℚ) : Option ℚ :=
  match a with
  | some x => if x = 0 then b else some x
  | none => b

/-- JavaScript truthiness of a possibly-absent number. -/
def jsTruthy (a : Option ℚ) : Bool :=
  match a with
  | some x => x != 0
  | none => false

/-- JavaScript `Math.round`: round half toward positive infinity. -/
def jsRound (x : ℚ) : ℤ := ⌊x + 1/2⌋

/-- A raw JSON object with numeric fields, as an association list in
insertion order (the order `Object.entries` iterates). -/
def JsObj : Type := List (String × ℚ)

/-- Field access `obj.key`: `none` models JavaScript `undefined`. -/
def jsLookup (o : JsObj) (k : String) : Option ℚ :=
  (List.find? (fun p => p.1 = k) o).map (fun p => p.2)

/-- Object spread `{...a, ...b}`: keys of `a` in their order with `b`'s
value where `b` overrides, then `b`'s new keys in their order. -/
def jsMerge (a b : JsObj) : JsObj :=
  List.map (fun p : String × ℚ =>
    match jsLookup b p.1 with
    | some v => (p.1, v)
    | none => p) a
  ++ List.filter (fun p : String × ℚ => (jsLookup a p.1).isNone) b

/-!
## Stats aggregator: reject rate (`getMinerStats`, server.js lines 1228-1230)

```js
const accepted = poolData.Accepted || 0;
const rejected = poolData.Rejected || 0;
const rejectRate = accepted > 0 ? (rejected / (accepted + rejected)) * 100 : 0;
```
-/

/-- Reject rate as computed by `getMinerStats` from the pool share
counters (a percentage). -/
def rejectRate (accepted rejected : ℕ) : ℚ :=
  if accepted > 0 then ((rejected : ℚ) / ((accepted : ℚ) + (rejected : ℚ))) * 100 else 0

/-- The spec's words for claim C2 (for comparison only): 0 when
`accepted = rejected = 0`, and `rejected/(accepted+rejected)` otherwise. -/
def specRejectRate (accepted rejected : ℕ) : ℚ :=
  if accepted = 0 ∧ rejected = 0 then 0
  else (rejected : ℚ) / ((accepted : ℚ) + (rejected : ℚ))

/-!
## Stats aggregator: power draw (`getMinerStats`, server.js lines 1222-1223)

```js
const power = statsData.Power || statsData.power || statsData.power_limit ||
              summaryData.Power || Math.round(hashrate * 34) || 3250;
```
-/

/-- Power draw as computed by `getMinerStats`: the first truthy reported
power field, else the truthy estimate `Math.round(hashrate * 34)`, else
the constant fallback 3250 W. -/
def powerDraw (statsPowerUC statsPowerLC statsPowerLimit summaryPower : Option ℚ)
    (hashrate : ℚ) : ℚ :=
  jsOrV statsPowerUC (jsOrV statsPowerLC (jsOrV statsPowerLimit (jsOrV summaryPower
    (jsOrV (some ((jsRound (hashrate * 34) : ℤ) : ℚ)) 3250))))

/-!
## Control: power profiles (`setPowerProfile`, server.js lines 1349-1375)

```js
const profiles = { low: 2000, medium: 3250, high: 3500 };
const targetPower = profiles[profile];
try {
  await sendCGMinerCommand(ip, { command: 'ascset', parameter: `0,power,${targetPower}` });
  return { success: true, profile, power: targetPower };
} catch (err) {
  return { success: true, profile, power: targetPower,
           note: 'Command sent but response uncertain' };
}
```
The `ascset` device command either resolves or rejects; we model its
outcome as an `Except` value consumed by the function.
-/

/-- The enumerated control profiles (the HTTP layer only forwards
`low`/`medium`/`high`, server.js line 1495). -/
inductive PowerProfile
  | low
  | medium
  | high
deriving DecidableEq

/-- The `profiles` table of `setPowerProfile`. -/
def profileTargetPower : PowerProfile → ℕ
  | .low => 2000
  | .medium => 3250
  | .high => 3500

/-- The object `setPowerProfile` resolves with. -/
structure SetProfileResult where
  success : Bool
  profile : PowerProfile
  power : ℕ
  note : Option String
deriving DecidableEq

/-- `setPowerProfile`: issue the `ascset` write and downgrade a device
failure to a sent-but-unconfirmed success result. -/
def setPowerProfile (profile : PowerProfile) (commandOutcome : Except String Unit) :
    SetProfileResult :=
  let targetPower := profileTargetPower profile
  match commandOutcome with
  | .ok _ => ⟨true, profile, targetPower, none⟩
  | .error _ => ⟨true, profile, targetPower, some "Command sent but response uncertain"⟩

/-!
## External market-data clients (server.js lines 504-622)

Each fetcher wraps its whole body in `try { ... } catch { return cache }`
(or guards the update behind a presence test), so we model one call as a
pure state transition on the cache: the `Option`-valued `fetched` argument
is the outcome of the HTTP call, with `none` standing for every failure
path (network error, timeout, non-JSON body, thrown validation error).
Ambient time (`new Date()`) is passed in explicitly.
-/

/-- One hourly entry of the upstream price API response. -/
structure RawPrice where
  time_start : String
  nok : ℚ
  eur : ℚ
deriving DecidableEq

/-- One entry of `electricityPriceCache.prices`. -/
structure CachedPrice where
  time : String
  priceExVat : ℚ
  priceIncVat : ℚ
  eur : ℚ
deriving DecidableEq

/-- The `electricityPriceCache` object (server.js lines 43-52): fields that
start out `null`/absent are `Option`-valued. -/
structure ElectricityPriceCache where
  prices : List CachedPrice
  currentPrice : Option ℚ
  avgPrice : Option ℚ
  minPrice : Option ℚ
  maxPrice : Option ℚ
  fetchedAt : Option String
  zone : String
  country : String
  zoneName : Option String
  currency : Option String
  vatRate : Option ℚ
deriving DecidableEq

/-- The initial `electricityPriceCache` value. -/
def electricityPriceCacheInit : ElectricityPriceCache :=
  { prices := [], currentPrice := none, avgPrice := none, minPrice := none,
    maxPrice := none, fetchedAt := none, zone := "NO5", country := "norway",
    zoneName := none, currency := none, vatRate := none }

/-- One zone of `ELECTRICITY_ZONES.norway.zones`: display name and the
optional per-zone VAT override (NO4 has `vatRate: 0`). -/
structure ZoneConfig where
  name : String
  vatRateOverride : Option ℚ
deriving DecidableEq

/-- `ELECTRICITY_ZONES.norway.zones` (server.js lines 23-37); the country
default VAT rate is 0.25. -/
def norwayZoneTable : List (String × ZoneConfig) :=
  [("NO1", ⟨"Oslo / Øst-Norge", none⟩),
   ("NO2", ⟨"Kristiansand / Sør-Norge", none⟩),
   ("NO3", ⟨"Trondheim / Midt-Norge", none⟩),
   ("NO4", ⟨"Tromsø / Nord-Norge", some 0⟩),
   ("NO5", ⟨"Bergen / Vest-Norge", none⟩)]

/-- Minimum of a non-empty list (`Math.min(...pricesWithVat)`; the list is
non-empty on every reachable call). -/
def listMin : List ℚ → ℚ
  | [] => 0
  | x :: xs => xs.foldl min x

/-- Maximum of a non-empty list (`Math.max(...pricesWithVat)`). -/
def listMax : List ℚ → ℚ
  | [] => 0
  | x :: xs => xs.foldl max x

/-- `fetchElectricityPrices` (server.js lines 504-569) as a cache
transition.  `hourOf` models `new Date(s).getHours()`, `currentHour` the
hour of `now`, and `nowIso` the `new Date().toISOString()` stamp.  Every
thrown error (unknown country/zone, failed request, empty or non-array
payload) is caught and the previous cache returned unchanged. -/
def fetchElectricityPrices (cache : ElectricityPriceCache) (country zone : String)
    (currentHour : ℕ) (hourOf : String → ℕ) (nowIso : String)
    (fetched : Option (List RawPrice)) : ElectricityPriceCache :=
  if country ≠ "norway" then cache
  else
    match List.find? (fun p => p.1 = zone) norwayZoneTable with
    | none => cache
    | some zoneEntry =>
      match fetched with
      | none => cache
      | some prices =>
        if prices.isEmpty then cache
        else
          let vatRate := zoneEntry.2.vatRateOverride.getD (1/4)
          let vatMultiplier := 1 + vatRate
          let currentEntry := List.find? (fun p => hourOf p.time_start = currentHour) prices
          let pricesWithVat := prices.map (fun p => p.nok * vatMultiplier)
          let avgPrice := pricesWithVat.sum / (pricesWithVat.length : ℚ)
          { prices := prices.map (fun p =>
              ⟨p.time_start, p.nok, p.nok * vatMultiplier, p.eur⟩),
            currentPrice := some (match currentEntry with
              | some p => p.nok * vatMultiplier
              | none => avgPrice),
            avgPrice := some avgPrice,
            minPrice := some (listMin pricesWithVat),
            maxPrice := some (listMax pricesWithVat),
            fetchedAt := some nowIso,
            zone := zone, country := country,
            zoneName := some zoneEntry.2.name,
            currency := some "NOK",
            vatRate := some vatRate }

/-- The `data.bitcoin` member of the exchange-rate API response; each
per-currency quote may be absent. -/
structure BtcQuote where
  usd : Option ℚ
  nok : Option ℚ
  eur : Option ℚ
  sek : Option ℚ
deriving DecidableEq

/-- The `btcPriceCache` object (server.js lines 54-58). -/
structure BtcPriceCache where
  priceUSD : Option ℚ
  priceNOK : Option ℚ
  priceEUR : Option ℚ
  priceSEK : Option ℚ
  fetchedAt : Option String
deriving DecidableEq

/-- The initial `btcPriceCache` value. -/
def btcPriceCacheInit : BtcPriceCache :=
  { priceUSD := none, priceNOK := none, priceEUR := none, priceSEK := none,
    fetchedAt := none }

/-- `fetchBTCPrice` (server.js lines 571-593) as a cache transition.  The
outer `Option` is the HTTP outcome (`none` = thrown and caught); the inner
`Option` is the `if (data.bitcoin)` presence test, which skips the update
when the member is missing. -/
def fetchBTCPrice (cache : BtcPriceCache) (nowIso : String)
    (fetched : Option (Option BtcQuote)) : BtcPriceCache :=
  match fetched with
  | none => cache
  | some none => cache
  | some (some q) =>
    { priceUSD := q.usd, priceNOK := q.nok, priceEUR := q.eur,
      priceSEK := q.sek, fetchedAt := some nowIso }

/-- The fields of the network-stats API response that the fetcher reads. -/
structure NetApiStats where
  difficulty : Option ℚ
  hash_rate : ℚ
  n_blocks_total : ℕ
  market_price_usd : Option ℚ
deriving DecidableEq

/-- The `networkStatsCache` object (server.js lines 60-66).  `blockReward`
is initialized to 3.125 and never absent; `hashrateFormatted` and
`blocksPerDay` only appear after the first successful fetch. -/
structure NetworkStatsCache where
  difficulty : Option ℚ
  hashrate : Option ℚ
  hashrateFormatted : Option String
  blockHeight : Option ℕ
  blockReward : ℚ
  blocksPerDay : Option ℚ
  marketPriceUSD : Option ℚ
  fetchedAt : Option String
deriving DecidableEq

/-- The initial `networkStatsCache` value. -/
def networkStatsCacheInit : NetworkStatsCache :=
  { difficulty := none, hashrate := none, hashrateFormatted := none,
    blockHeight := none, blockReward := 3.125, blocksPerDay := none,
    marketPriceUSD := none, fetchedAt := none }

/-- `Number.toFixed(2)` for the non-negative values that occur here. -/
def toFixed2 (q : ℚ) : String :=
  let n := jsRound (q * 100)
  let fracPart := (n % 100).toNat
  toString (n / 100) ++ "." ++
    (if fracPart < 10 then "0" ++ toString fracPart else toString fracPart)

/-- `fetchNetworkStats` (server.js lines 595-622) as a cache transition:
the update runs only under `if (stats && stats.difficulty)`, so a missing
or zero (falsy) difficulty leaves the cache untouched, as does a thrown
and caught request error (`fetched = none`). -/
def fetchNetworkStats (cache : NetworkStatsCache) (nowIso : String)
    (fetched : Option NetApiStats) : NetworkStatsCache :=
  match fetched with
  | none => cache
  | some s =>
    match s.difficulty with
    | none => cache
    | some d =>
      if d = 0 then cache
      else
        let hashrateEHs := s.hash_rate / 1000000000
        { difficulty := some d,
          hashrate := some hashrateEHs,
          hashrateFormatted := some (toFixed2 hashrateEHs ++ " EH/s"),
          blockHeight := some s.n_blocks_total,
          blockReward := 3.125,
          blocksPerDay := some 144,
          marketPriceUSD := s.market_price_usd,
          fetchedAt := some nowIso }

/-!
## Efficiency/pricing engine

`getMinerStats` effective-price selection (server.js lines 1243-1246):

```js
const spotPrice = electricityPriceCache.currentPrice || 1.0;
const gridFee = config.gridFeePerKwh || 0.50;
const useNorgespris = config.priceMode === 'norgespris';
const effectivePrice = useNorgespris ? spotPrice + gridFee : spotPrice;
```
-/

/-- The configuration fields `getMinerStats` reads. -/
structure MinerConfig where
  currentProfile : Option String
  country : Option String
  gridFeePerKwh : Option ℚ
  priceMode : Option String
deriving DecidableEq

/-- The grid fee used by `getMinerStats`: the single configured
`gridFeePerKwh` (default 0.50), with no time-of-day input. -/
def gridFeeUsed (config : MinerConfig) : ℚ :=
  jsOrV config.gridFeePerKwh (1/2)

/-- The effective electricity price computed by `getMinerStats`:
`spot + gridFee` in `norgespris` mode, the bare spot price otherwise. -/
def effectivePrice (cache : ElectricityPriceCache) (config : MinerConfig) : ℚ :=
  let spotPrice := jsOrV cache.currentPrice 1
  let gridFee := gridFeeUsed config
  let useNorgespris := config.priceMode = some "norgespris"
  if useNorgespris then spotPrice + gridFee else spotPrice

/-- Follows the spec's words for claim C1 (the Strømstøtteavtale formula
also stated in README.md and PROJECT_CONTEXT.md): above the threshold the
effective price is `spot − (spot − threshold) × subsidyFraction + gridFee`,
below it `spot + gridFee`. -/
def specSubsidizedSpotPrice (spot threshold subsidyFraction gridFee : ℚ) : ℚ :=
  if threshold < spot then spot - (spot - threshold) * subsidyFraction + gridFee
  else spot + gridFee

/-- Follows the spec's words for claim C3: the daytime rate inside the
weekday daytime window (Monday-Friday, `startHour ≤ hour < endHour`), the
off-peak rate at every other time.  `dayOfWeek`: 0 = Sunday ... 6 =
Saturday (JavaScript `Date.getDay` convention). -/
def specGridFeeForTime (dayRate offPeakRate : ℚ) (startHour endHour : ℕ)
    (dayOfWeek hour : ℕ) : ℚ :=
  if 1 ≤ dayOfWeek ∧ dayOfWeek ≤ 5 ∧ startHour ≤ hour ∧ hour < endHour
  then dayRate else offPeakRate

/-- JavaScript `x || d` for a plain number `x` (0 falls through). -/
def jsOrN (x d : ℚ) : ℚ := if x = 0 then d else x

/-- The object `calculateEfficiency` returns (server.js lines 654-677). -/
structure EfficiencyResult where
  powerKW : ℚ
  dailyKWh : ℚ
  dailyBTCEstimate : ℚ
  dailyEarnings : ℚ
  hourlyEarnings : ℚ
  dailyElectricityCost : ℚ
  hourlyElectricityCost : ℚ
  dailyProfit : ℚ
  hourlyProfit : ℚ
  isProfitable : Bool
  efficiency : ℚ
  costPerTH : ℚ
  hashprice : ℚ
  networkHashrate : ℚ
  networkDifficulty : Option ℚ
  heatOutputKWh : ℚ
  equivalentHeatPumpCost : ℚ
  heatingSavings : ℚ
  effectiveSCOP : ℚ
  breakevenBTCPrice : ℚ
  currentBTCPrice : ℚ
  currency : String
deriving DecidableEq

/-- `calculateEfficiency` (server.js lines 628-678), with the global
`networkStatsCache` it reads passed explicitly.  Division on ℚ is total
with `x / 0 = 0`, where JavaScript would produce `Infinity`/`NaN` (zero
hashrate or zero cost); no claim evaluates those degenerate points. -/
def calculateEfficiency (hashrateTHs powerWatts electricityPricePerKWh btcPrice : ℚ)
    (currency : String) (networkStats : NetworkStatsCache) : EfficiencyResult :=
  let networkHashrateEHs := jsOrV networkStats.hashrate 700
  let blockReward := jsOrN networkStats.blockReward 3.125
  let blocksPerDay := jsOrV networkStats.blocksPerDay 144
  let hashrateEHs := hashrateTHs / 1000000
  let dailyBTCEstimate := (hashrateEHs / networkHashrateEHs) * blockReward * blocksPerDay
  let powerKW := powerWatts / 1000
  let dailyKWh := powerKW * 24
  let dailyElectricityCost := dailyKWh * electricityPricePerKWh
  let dailyEarnings := dailyBTCEstimate * btcPrice
  let dailyProfit := dailyEarnings - dailyElectricityCost
  let efficiency := hashrateTHs / powerKW
  let costPerTH := dailyElectricityCost / hashrateTHs
  let hashprice := dailyEarnings / hashrateTHs
  let heatOutputKWh := dailyKWh
  let equivalentHeatPumpCost := dailyKWh / (7/2) * electricityPricePerKWh
  let heatingSavings := equivalentHeatPumpCost - dailyElectricityCost + dailyEarnings
  let effectiveMultiplier := dailyEarnings / dailyElectricityCost
  let effectiveSCOP := 1 / (1 - min effectiveMultiplier (99/100))
  { powerKW := powerKW,
    dailyKWh := dailyKWh,
    dailyBTCEstimate := dailyBTCEstimate,
    dailyEarnings := dailyEarnings,
    hourlyEarnings := dailyEarnings / 24,
    dailyElectricityCost := dailyElectricityCost,
    hourlyElectricityCost := dailyElectricityCost / 24,
    dailyProfit := dailyProfit,
    hourlyProfit := dailyProfit / 24,
    isProfitable := decide (0 < dailyProfit),
    efficiency := efficiency,
    costPerTH := costPerTH,
    hashprice := hashprice,
    networkHashrate := networkHashrateEHs,
    networkDifficulty := networkStats.difficulty,
    heatOutputKWh := heatOutputKWh,
    equivalentHeatPumpCost := equivalentHeatPumpCost,
    heatingSavings := heatingSavings,
    effectiveSCOP := min effectiveSCOP 10,
    breakevenBTCPrice := dailyElectricityCost / dailyBTCEstimate,
    currentBTCPrice := btcPrice,
    currency := currency }

/-!
## Claim theorems: C2, C8, C9
-/

/-- C2, counterexample: the claim's formula `rejected/(accepted+rejected)`
(0 only when both counters are 0) disagrees with the code at
`accepted = 0, rejected = 1` (code: 0, claim: 1) and at
`accepted = 1, rejected = 1` (code: 50, a percentage, claim: 1/2). -/
theorem rejectRate_spec_counterexample :
    rejectRate 0 1 = 0 ∧ specRejectRate 0 1 = 1 ∧
    rejectRate 1 1 = 50 ∧ specRejectRate 1 1 = 1/2 := by
  refine ⟨rfl, ?_, ?_, ?_⟩ <;> norm_num [specRejectRate, rejectRate]

/-- C2 (amended): for all non-negative integer share counts, the reject
rate equals 0 whenever `accepted = 0` (even if shares were rejected), and
equals the percentage `rejected/(accepted+rejected) × 100` otherwise. -/
theorem rejectRate_eq :
    ∀ accepted rejected : ℕ,
      rejectRate accepted rejected =
        if accepted = 0 then 0
        else ((rejected : ℚ) / ((accepted : ℚ) + (rejected : ℚ))) * 100 := by
  intro a r
  unfold rejectRate
  rcases Nat.eq_zero_or_pos a with h | h
  · simp [h]
  · simp [h, Nat.pos_iff_ne_zero.mp h]

/-- C8: for every profile in the enumerated set, `setPowerProfile` is total
over both device-command outcomes (never raises on the write path), always
reports success, and carries the applied profile name and its target power
(2000 W, 3250 W or 3500 W); a device failure only adds the
sent-but-unconfirmed note. -/
theorem setPowerProfile_never_fails :
    ∀ (p : PowerProfile) (outcome : Except String Unit),
      (setPowerProfile p outcome).success = true ∧
      (setPowerProfile p outcome).profile = p ∧
      (setPowerProfile p outcome).power = profileTargetPower p ∧
      profileTargetPower .low = 2000 ∧
      profileTargetPower .medium = 3250 ∧
      profileTargetPower .high = 3500 ∧
      ((setPowerProfile p outcome).note.isSome ↔ outcome.isOk = false) := by
  intro p outcome
  cases outcome <;>
    simp [setPowerProfile, Except.isOk, Except.toBool, profileTargetPower]

/-- C9, counterexample: with every power field absent and hashrate
`1/100` TH/s, the estimate `Math.round(hashrate × 34)` rounds to 0, so the
code returns the 3250 W fallback even though the hashrate is nonzero —
the claim, which reserves the 3250 fallback for hashrate 0, predicts
`round(0.34) = 0` W there (and its own "always positive" conclusion would
fail). -/
theorem powerDraw_estimate_counterexample :
    powerDraw none none none none (1/100) = 3250 ∧
    (1 : ℚ)/100 ≠ 0 ∧
    jsRound ((1/100) * 34) = 0 := by
  refine ⟨?_, by norm_num, ?_⟩
  · simp only [powerDraw, jsOrV, jsRound]
    norm_num [Int.floor_eq_zero_iff]
  · simp only [jsRound]
    norm_num [Int.floor_eq_zero_iff]

/-- C9 (amended): a reported power value of 0 (or any absent power field in
stats or summary) is treated as not reported; the power draw is then the
estimate `Math.round(hashrate × 34)` W whenever that estimate is nonzero,
and the constant 3250 W when the estimate rounds to 0 (in particular when
the hashrate is 0), so for every non-negative hashrate the returned power
draw is positive. -/
theorem powerDraw_fallback (hashrate : ℚ) (hnn : 0 ≤ hashrate) :
    powerDraw (some 0) (some 0) (some 0) (some 0) hashrate =
      powerDraw none none none none hashrate ∧
    powerDraw none none none none hashrate =
      (if jsRound (hashrate * 34) = 0 then 3250 else ((jsRound (hashrate * 34) : ℤ) : ℚ)) ∧
    0 < powerDraw none none none none hashrate := by
  have hz : powerDraw none none none none hashrate =
      (if jsRound (hashrate * 34) = 0 then 3250 else ((jsRound (hashrate * 34) : ℤ) : ℚ)) := by
    simp only [powerDraw, jsOrV]
    by_cases h : ((jsRound (hashrate * 34) : ℤ) : ℚ) = 0
    · rw [if_pos h, if_pos (by exact_mod_cast h)]
    · rw [if_neg h, if_neg (fun hc => h (by exact_mod_cast hc))]
  refine ⟨by simp [powerDraw, jsOrV], hz, ?_⟩
  rw [hz]
  have hge : 0 ≤ jsRound (hashrate * 34) := by
    have : (0 : ℚ) ≤ hashrate * 34 := by positivity
    simp only [jsRound]
    exact Int.le_floor.mpr (by push_cast; linarith)
  by_cases h : jsRound (hashrate * 34) = 0
  · rw [if_pos h]; norm_num
  · rw [if_neg h]
    exact_mod_cast lt_of_le_of_ne hge (Ne.symm h)

/-- C9 witness: at hashrate 0 the hypotheses hold and the fallback yields
the positive constant 3250 W. -/
theorem powerDraw_fallback_witness :
    powerDraw none none none none 0 =
      (if jsRound (0 * 34) = 0 then 3250 else ((jsRound (0 * 34) : ℤ) : ℚ)) ∧
    0 < powerDraw none none none none 0 :=
  ⟨(powerDraw_fallback 0 le_rfl).2.1, (powerDraw_fallback 0 le_rfl).2.2⟩

/-!
## Claim theorems: C1, C3, C4, C7
-/

/-- C1, code evaluation at the failing input: at spot price 2.00 with grid
fee 0.50 the code returns 2.50 (`norgespris` mode, spot + grid fee) or
2.00 (`spotpris` mode, bare spot); it implements no subsidy threshold,
while the subsidized-spot formula documented in README.md and
PROJECT_CONTEXT.md (threshold 0.9375, fraction 0.90) yields
247/160 = 1.54375 (the spec's rounded 1.544).  Neither mode matches. -/
theorem effectivePrice_subsidy_divergence :
    effectivePrice { electricityPriceCacheInit with currentPrice := some 2 }
        ⟨some "medium", some "norway", some (1/2), some "norgespris"⟩ = 5/2 ∧
    effectivePrice { electricityPriceCacheInit with currentPrice := some 2 }
        ⟨some "medium", some "norway", some (1/2), some "spotpris"⟩ = 2 ∧
    specSubsidizedSpotPrice 2 (15/16) (9/10) (1/2) = 247/160 ∧
    (5/2 : ℚ) ≠ 247/160 ∧ (2 : ℚ) ≠ 247/160 := by
  refine ⟨?_, ?_, ?_, by norm_num, by norm_num⟩
  · simp only [effectivePrice, gridFeeUsed, jsOrV, electricityPriceCacheInit]
    norm_num
  · simp only [effectivePrice, gridFeeUsed, jsOrV, electricityPriceCacheInit]
    norm_num
    decide
  · norm_num [specSubsidizedSpotPrice]

/-- C3, code evaluation at the failing input: the grid fee used by
`getMinerStats` is the single configured `gridFeePerKwh` (a function of the
configuration only, taking no timestamp), so it is 0.50 in every mode and
at every time; the documented time-of-day selection (daytime 0.50 on
Mon-Fri 06:00-22:00, off-peak 0.30 otherwise) returns 0.30 for a Saturday
(day 6) at 12:00 — and 0.50 for a Wednesday (day 3) at 12:00 — which the
code cannot reproduce. -/
theorem gridFee_time_of_day_divergence :
    gridFeeUsed ⟨none, none, some (1/2), some "spotpris"⟩ = 1/2 ∧
    gridFeeUsed ⟨none, none, some (1/2), some "norgespris"⟩ = 1/2 ∧
    specGridFeeForTime (1/2) (3/10) 6 22 6 12 = 3/10 ∧
    specGridFeeForTime (1/2) (3/10) 6 22 3 12 = 1/2 ∧
    ((1 : ℚ)/2) ≠ 3/10 := by
  refine ⟨?_, ?_, ?_, ?_, by norm_num⟩ <;>
    norm_num [gridFeeUsed, jsOrV, specGridFeeForTime]

/-- A failed electricity-price fetch (thrown and caught) returns the
previous cache unchanged, whatever the requested country/zone. -/
theorem fetchElectricityPrices_failure_id (cache : ElectricityPriceCache)
    (country zone : String) (currentHour : ℕ) (hourOf : String → ℕ)
    (nowIso : String) :
    fetchElectricityPrices cache country zone currentHour hourOf nowIso none = cache := by
  unfold fetchElectricityPrices
  split
  · rfl
  · split <;> rfl

/-- A failed exchange-rate fetch returns the previous cache unchanged. -/
theorem fetchBTCPrice_failure_id (cache : BtcPriceCache) (nowIso : String) :
    fetchBTCPrice cache nowIso none = cache := rfl

/-- A failed network-stats fetch returns the previous cache unchanged. -/
theorem fetchNetworkStats_failure_id (cache : NetworkStatsCache) (nowIso : String) :
    fetchNetworkStats cache nowIso none = cache := rfl

/-- C4: for each of the three market-data caches, once a fetch has
succeeded, any number `n` of consecutive failing fetches leaves the cache
exactly at the last successfully fetched value set, whose key fields are
non-null (current electricity price, non-empty price list, the fetched
quote set, difficulty and hashrate) together with its fetch timestamp. -/
theorem marketCaches_never_invalidated
    (ec : ElectricityPriceCache) (bc : BtcPriceCache) (nc : NetworkStatsCache)
    (zone nowIso : String) (currentHour : ℕ) (hourOf : String → ℕ)
    (ps : List RawPrice) (q : BtcQuote) (s : NetApiStats) (d : ℚ) (n : ℕ)
    (hzone : (List.find? (fun p => p.1 = zone) norwayZoneTable).isSome)
    (hps : ps ≠ [])
    (hd : s.difficulty = some d) (hd0 : d ≠ 0) :
    (Nat.iterate (fun c => fetchElectricityPrices c "norway" zone currentHour hourOf nowIso none) n
        (fetchElectricityPrices ec "norway" zone currentHour hourOf nowIso (some ps))
      = fetchElectricityPrices ec "norway" zone currentHour hourOf nowIso (some ps) ∧
     (fetchElectricityPrices ec "norway" zone currentHour hourOf nowIso (some ps)).currentPrice.isSome ∧
     (fetchElectricityPrices ec "norway" zone currentHour hourOf nowIso (some ps)).prices ≠ [] ∧
     (fetchElectricityPrices ec "norway" zone currentHour hourOf nowIso (some ps)).fetchedAt = some nowIso) ∧
    (Nat.iterate (fun c => fetchBTCPrice c nowIso none) n
        (fetchBTCPrice bc nowIso (some (some q)))
      = fetchBTCPrice bc nowIso (some (some q)) ∧
     fetchBTCPrice bc nowIso (some (some q))
      = ⟨q.usd, q.nok, q.eur, q.sek, some nowIso⟩) ∧
    (Nat.iterate (fun c => fetchNetworkStats c nowIso none) n
        (fetchNetworkStats nc nowIso (some s))
      = fetchNetworkStats nc nowIso (some s) ∧
     (fetchNetworkStats nc nowIso (some s)).difficulty = some d ∧
     (fetchNetworkStats nc nowIso (some s)).hashrate.isSome ∧
     (fetchNetworkStats nc nowIso (some s)).fetchedAt = some nowIso) := by
  obtain ⟨ze, hze⟩ := Option.isSome_iff_exists.mp hzone
  have hElecSuccess :
      (fetchElectricityPrices ec "norway" zone currentHour hourOf nowIso (some ps)).currentPrice.isSome ∧
      (fetchElectricityPrices ec "norway" zone currentHour hourOf nowIso (some ps)).prices ≠ [] ∧
      (fetchElectricityPrices ec "norway" zone currentHour hourOf nowIso (some ps)).fetchedAt = some nowIso := by
    cases ps with
    | nil => exact absurd rfl hps
    | cons p0 tl =>
      unfold fetchElectricityPrices
      rw [if_neg (by simp)]
      split
      · rename_i heq
        rw [heq] at hze
        exact Option.noConfusion hze
      · simp
  have hNetSuccess :
      (fetchNetworkStats nc nowIso (some s)).difficulty = some d ∧
      (fetchNetworkStats nc nowIso (some s)).hashrate.isSome ∧
      (fetchNetworkStats nc nowIso (some s)).fetchedAt = some nowIso := by
    obtain ⟨sd, shr, snb, smp⟩ := s
    simp only at hd
    subst hd
    simp [fetchNetworkStats, hd0]
  refine ⟨⟨?_, hElecSuccess⟩, ⟨?_, rfl⟩, ⟨?_, hNetSuccess⟩⟩
  · apply Function.iterate_fixed
    exact fetchElectricityPrices_failure_id _ "norway" zone currentHour hourOf nowIso
  · apply Function.iterate_fixed
    exact fetchBTCPrice_failure_id _ nowIso
  · apply Function.iterate_fixed
    exact fetchNetworkStats_failure_id _ nowIso

/-- C4 witness: one successful fetch per cache, followed by three
consecutive failing fetches, leaves all three caches at their last
successfully fetched value sets. -/
theorem marketCaches_never_invalidated_witness :
    (Nat.iterate (fun c => fetchElectricityPrices c "norway" "NO5" 0 (fun _ => 0) "t0" none) 3
        (fetchElectricityPrices electricityPriceCacheInit "norway" "NO5" 0 (fun _ => 0) "t0"
          (some [⟨"p0", 1, 0⟩]))
      = fetchElectricityPrices electricityPriceCacheInit "norway" "NO5" 0 (fun _ => 0) "t0"
          (some [⟨"p0", 1, 0⟩]) ∧
     (fetchElectricityPrices electricityPriceCacheInit "norway" "NO5" 0 (fun _ => 0) "t0"
        (some [⟨"p0", 1, 0⟩])).currentPrice.isSome ∧
     (fetchElectricityPrices electricityPriceCacheInit "norway" "NO5" 0 (fun _ => 0) "t0"
        (some [⟨"p0", 1, 0⟩])).prices ≠ [] ∧
     (fetchElectricityPrices electricityPriceCacheInit "norway" "NO5" 0 (fun _ => 0) "t0"
        (some [⟨"p0", 1, 0⟩])).fetchedAt = some "t0") ∧
    (Nat.iterate (fun c => fetchBTCPrice c "t0" none) 3
        (fetchBTCPrice btcPriceCacheInit "t0"
          (some (some ⟨some 95000, some 1000000, some 90000, some 1000000⟩)))
      = fetchBTCPrice btcPriceCacheInit "t0"
          (some (some ⟨some 95000, some 1000000, some 90000, some 1000000⟩)) ∧
     fetchBTCPrice btcPriceCacheInit "t0"
        (some (some ⟨some 95000, some 1000000, some 90000, some 1000000⟩))
      = ⟨some 95000, some 1000000, some 90000, some 1000000, some "t0"⟩) ∧
    (Nat.iterate (fun c => fetchNetworkStats c "t0" none) 3
        (fetchNetworkStats networkStatsCacheInit "t0" (some ⟨some 2, 600, 800000, none⟩))
      = fetchNetworkStats networkStatsCacheInit "t0" (some ⟨some 2, 600, 800000, none⟩) ∧
     (fetchNetworkStats networkStatsCacheInit "t0" (some ⟨some 2, 600, 800000, none⟩)).difficulty
      = some 2 ∧
     (fetchNetworkStats networkStatsCacheInit "t0" (some ⟨some 2, 600, 800000, none⟩)).hashrate.isSome ∧
     (fetchNetworkStats networkStatsCacheInit "t0" (some ⟨some 2, 600, 800000, none⟩)).fetchedAt
      = some "t0") :=
  marketCaches_never_invalidated electricityPriceCacheInit btcPriceCacheInit
    networkStatsCacheInit "NO5" "t0" 0 (fun _ => 0) [⟨"p0", 1, 0⟩]
    ⟨some 95000, some 1000000, some 90000, some 1000000⟩ ⟨some 2, 600, 800000, none⟩ 2 3
    (by rfl) (by simp) rfl (by norm_num)

/-- C7, counterexample: reading the claim's "network hashrate 600,000 TH/s
(600 EH/s)" as 600 EH/s — the unit the cache stores — the engine yields
3/40000 = 0.000075 BTC/day and 75 units of daily earnings at asset price
1,000,000, not the claimed ≈ 0.075 and 75,000: the claim's parenthetical
unit conversion is off by a factor of 1000 (600,000 TH/s is 0.6 EH/s). -/
theorem calculateEfficiency_units_counterexample :
    (calculateEfficiency 100 3250 1 1000000 "NOK"
        { networkStatsCacheInit with hashrate := some 600, blocksPerDay := some 144 }).dailyBTCEstimate
      = 3/40000 ∧
    (calculateEfficiency 100 3250 1 1000000 "NOK"
        { networkStatsCacheInit with hashrate := some 600, blocksPerDay := some 144 }).dailyEarnings
      = 75 ∧
    (3/40000 : ℚ) ≠ 3/40 ∧ (75 : ℚ) ≠ 75000 := by
  refine ⟨?_, ?_, by norm_num, by norm_num⟩ <;>
    norm_num [calculateEfficiency, jsOrV, jsOrN, networkStatsCacheInit]

/-- C7 (amended): the engine derives the daily yield as
(device hashrate ÷ network hashrate) × block reward × blocks/day with both
hashrates in the same unit (device TH/s converted to EH/s); in the
end-to-end scenario the network hashrate 600,000 TH/s is 0.6 EH/s, and
there the daily yield is exactly 3/40 = 0.075 units, daily earnings are
75,000 at asset price 1,000,000, and the daily cost is
3.25 kW × 24 h × effective price. -/
theorem calculateEfficiency_yield
    (hashrateTHs powerWatts price btcPrice : ℚ) (cur : String)
    (nc : NetworkStatsCache) (netEH : ℚ)
    (hnet : nc.hashrate = some netEH) (hnz : netEH ≠ 0) :
    (calculateEfficiency hashrateTHs powerWatts price btcPrice cur nc).dailyBTCEstimate
      = (hashrateTHs / (netEH * 1000000)) * jsOrN nc.blockReward 3.125
          * jsOrV nc.blocksPerDay 144 ∧
    (calculateEfficiency hashrateTHs powerWatts price btcPrice cur nc).dailyElectricityCost
      = (powerWatts / 1000) * 24 * price ∧
    (calculateEfficiency 100 3250 price 1000000 "NOK"
        { networkStatsCacheInit with hashrate := some (3/5), blocksPerDay := some 144 }).dailyBTCEstimate
      = 3/40 ∧
    (calculateEfficiency 100 3250 price 1000000 "NOK"
        { networkStatsCacheInit with hashrate := some (3/5), blocksPerDay := some 144 }).dailyEarnings
      = 75000 ∧
    (calculateEfficiency 100 3250 price 1000000 "NOK"
        { networkStatsCacheInit with hashrate := some (3/5), blocksPerDay := some 144 }).dailyElectricityCost
      = (13/4) * 24 * price := by
  refine ⟨?_, ?_, ?_, ?_, ?_⟩
  · simp only [calculateEfficiency, hnet, jsOrV]
    rw [if_neg hnz, div_div]
    ring
  · simp only [calculateEfficiency]
  · norm_num [calculateEfficiency, jsOrV, jsOrN, networkStatsCacheInit]
  · norm_num [calculateEfficiency, jsOrV, jsOrN, networkStatsCacheInit]
  · norm_num [calculateEfficiency, jsOrV, jsOrN, networkStatsCacheInit]

/-- C7 witness: the formula instance at a device of 100 TH/s and 3250 W
against a 600 EH/s network cache. -/
theorem calculateEfficiency_yield_witness :
    (calculateEfficiency 100 3250 2 1000000 "NOK"
        { networkStatsCacheInit with hashrate := some 600, blocksPerDay := some 144 }).dailyBTCEstimate
      = (100 / (600 * 1000000))
          * jsOrN ({ networkStatsCacheInit with
              hashrate := some 600, blocksPerDay := some 144 } : NetworkStatsCache).blockReward 3.125
          * jsOrV ({ networkStatsCacheInit with
              hashrate := some 600, blocksPerDay := some 144 } : NetworkStatsCache).blocksPerDay 144 ∧
    (calculateEfficiency 100 3250 2 1000000 "NOK"
        { networkStatsCacheInit with hashrate := some 600, blocksPerDay := some 144 }).dailyElectricityCost
      = (3250 / 1000) * 24 * 2 ∧
    (calculateEfficiency 100 3250 2 1000000 "NOK"
        { networkStatsCacheInit with hashrate := some (3/5), blocksPerDay := some 144 }).dailyBTCEstimate
      = 3/40 ∧
    (calculateEfficiency 100 3250 2 1000000 "NOK"
        { networkStatsCacheInit with hashrate := some (3/5), blocksPerDay := some 144 }).dailyEarnings
      = 75000 ∧
    (calculateEfficiency 100 3250 2 1000000 "NOK"
        { networkStatsCacheInit with hashrate := some (3/5), blocksPerDay := some 144 }).dailyElectricityCost
      = (13/4) * 24 * 2 :=
  calculateEfficiency_yield 100 3250 2 1000000 "NOK"
    { networkStatsCacheInit with hashrate := some 600, blocksPerDay := some 144 } 600
    rfl (by norm_num)

/-!
## Device protocol client: response cleaning (`sendCGMinerCommand`,
server.js lines 698-707)

```js
const cleaned = data.replace(/\0/g, '');
const parsed = JSON.parse(cleaned);
```
The device terminates each JSON frame with a null byte; well-formed JSON
text cannot contain a literal NUL character (control characters must be
escaped inside string literals), which is the hypothesis below.
-/

/-- The NUL terminator byte. -/
def nullChar : Char := Char.ofNat 0

/-- `data.replace(/\0/g, '')`: remove every NUL character. -/
def cleanMinerResponse (data : List Char) : List Char :=
  List.filter (fun c => c ≠ nullChar) data

/-- Stripping only the trailing null-byte terminator from a reply. -/
def stripTrailingNulls (data : List Char) : List Char :=
  (List.dropWhile (fun c => c = nullChar) data.reverse).reverse

/-!
## Telemetry normalizer (`extractTemperatures` / `extractFanSpeeds`,
server.js lines 725-913)
-/

/-- `needle ∈ haystack` as JavaScript `String.includes`, on char lists. -/
def listContainsSub (pat : List Char) : List Char → Bool
  | [] => pat.isEmpty
  | c :: rest => List.isPrefixOf pat (c :: rest) || listContainsSub pat rest

/-- JavaScript `s.includes(pat)`. -/
def strContains (s pat : String) : Bool :=
  listContainsSub pat.toList s.toList

/-- JavaScript `s.toLowerCase()` (the field names involved are ASCII). -/
def strLower (s : String) : String :=
  String.mk (List.map Char.toLower s.toList)

/-- The result object of `extractTemperatures`: JavaScript `null` and a
still-`undefined` board slot are both `none` (inside the function the two
are never distinguished: `=== null` tests on boards only run on branches
where the slot is either untouched or a number). -/
structure TempsRec where
  board1 : Option ℚ
  board2 : Option ℚ
  board3 : Option ℚ
  chip : Option ℚ
deriving DecidableEq

/-- The result object of `extractFanSpeeds`. -/
structure FansRec where
  speed1 : Option ℚ
  speed2 : Option ℚ
  speed3 : Option ℚ
  speed4 : Option ℚ
deriving DecidableEq

/-- Pattern 1 guard: `combinedData.temp_chip_1 !== undefined`. -/
def hasTempChipPattern (cd : JsObj) : Bool :=
  (jsLookup cd "temp_chip_1").isSome

/-- Pattern 2 guard: `combinedData.temp1 !== undefined`. -/
def hasTemp1Pattern (cd : JsObj) : Bool :=
  (jsLookup cd "temp1").isSome

/-- Pattern 3 guard: `combinedData.temp2_1 !== undefined`. -/
def hasTemp2Pattern (cd : JsObj) : Bool :=
  (jsLookup cd "temp2_1").isSome

/-- Pattern 4 guard: `combinedData.Temperature !== undefined`. -/
def hasTemperaturePattern (cd : JsObj) : Bool :=
  (jsLookup cd "Temperature").isSome

/-- Pattern 5 guard: some key starts with `chain_`. -/
def hasChainPattern (cd : JsObj) : Bool :=
  List.any cd (fun p => List.isPrefixOf "chain_".toList p.1.toList)

/-- One iteration of the Pattern 6 generic scan: a numeric field whose
name contains `temp` and whose value lies in (0, 150) feeds `chip` when
the name contains `chip`, else the first still-null board slot whose index
digit the name contains. -/
def tempSearchStep (t : TempsRec) (kv : String × ℚ) : TempsRec :=
  let key := kv.1
  let value := kv.2
  if strContains (strLower key) "temp" && decide (0 < value) && decide (value < 150) then
    if strContains (strLower key) "chip" then { t with chip := some value }
    else if strContains key "1" && decide (t.board1 = none) then { t with board1 := some value }
    else if strContains key "2" && decide (t.board2 = none) then { t with board2 := some value }
    else if strContains key "3" && decide (t.board3 = none) then { t with board3 := some value }
    else t
  else t

/-- `extractTemperatures(statsData, devsData = {}, allStatsData = {})`
(server.js lines 725-841): merge the three sources, try the ordered
pattern cascade (first match wins), then the generic `*temp*` scan when no
chip value was committed; Pattern 7 (fields merely in a 20-100 value
range) only logs candidates and commits nothing; finally fall back to the
maximum found board temperature for the chip. -/
def extractTemperatures (statsData devsData allStatsData : JsObj) : TempsRec :=
  let combinedData := jsMerge (jsMerge allStatsData statsData) devsData
  let temps : TempsRec := ⟨none, none, none, none⟩
  let temps :=
    if hasTempChipPattern combinedData then
      { temps with
        board1 := jsOr2 (jsLookup combinedData "temp_pcb_1") (jsLookup combinedData "temp_chip_1"),
        board2 := jsOr2 (jsLookup combinedData "temp_pcb_2") (jsLookup combinedData "temp_chip_2"),
        board3 := jsOr2 (jsLookup combinedData "temp_pcb_3") (jsLookup combinedData "temp_chip_3"),
        chip := some (max ((jsLookup combinedData "temp_chip_1").getD 0)
          (max ((jsLookup combinedData "temp_chip_2").getD 0)
            ((jsLookup combinedData "temp_chip_3").getD 0))) }
    else if hasTemp1Pattern combinedData then
      let board1 := jsLookup combinedData "temp1"
      let board2 := jsLookup combinedData "temp2"
      let board3 := jsLookup combinedData "temp3"
      { board1 := board1, board2 := board2, board3 := board3,
        chip := jsOr2 (jsLookup combinedData "temp")
          (some (max (board1.getD 0) (max (board2.getD 0) (board3.getD 0)))) }
    else if hasTemp2Pattern combinedData then
      let board1 := jsLookup combinedData "temp2_1"
      let board2 := jsLookup combinedData "temp2_2"
      let board3 := jsLookup combinedData "temp2_3"
      { board1 := board1, board2 := board2, board3 := board3,
        chip := some (max (board1.getD 0) (max (board2.getD 0) (board3.getD 0))) }
    else if hasTemperaturePattern combinedData then
      { temps with chip := jsLookup combinedData "Temperature" }
    else if hasChainPattern combinedData then
      -- the loop body reads `chain_temp${i}` for i = 1..3 (the source's
      -- second template-literal operand is dead code: a nonempty template
      -- literal is always truthy)
      let temps := match jsLookup combinedData "chain_temp1" with
        | some v => { temps with board1 := some v }
        | none => temps
      let temps := match jsLookup combinedData "chain_temp2" with
        | some v => { temps with board2 := some v }
        | none => temps
      match jsLookup combinedData "chain_temp3" with
        | some v => { temps with board3 := some v }
        | none => temps
    else temps
  let temps :=
    if temps.chip = none then List.foldl tempSearchStep temps combinedData else temps
  if temps.chip = none ∧ (jsTruthy temps.board1 ∨ jsTruthy temps.board2 ∨ jsTruthy temps.board3) then
    { temps with chip := some (max (temps.board1.getD 0)
        (max (temps.board2.getD 0) (temps.board3.getD 0))) }
  else temps

/-- One iteration of the fan-field search loop of `extractFanSpeeds`. -/
def fanSearchStep (f : FansRec) (kv : String × ℚ) : FansRec :=
  let key := kv.1
  let value := kv.2
  if strContains (strLower key) "fan" && decide (0 < value) then
    if decide (f.speed1 = none) && (strContains key "1" || strContains (strLower key) "in") then
      { f with speed1 := some value }
    else if decide (f.speed2 = none) && (strContains key "2" || strContains (strLower key) "out") then
      { f with speed2 := some value }
    else if decide (f.speed3 = none) && strContains key "3" then { f with speed3 := some value }
    else if decide (f.speed4 = none) && strContains key "4" then { f with speed4 := some value }
    else f
  else f

/-- `extractFanSpeeds(statsData, devsData = {}, allStatsData = {})`
(server.js lines 846-913): the named-pattern cascade, then the generic
fan-field search when `speed1` is still null; the trailing RPM-value-range
block only logs candidates and commits nothing. -/
def extractFanSpeeds (statsData devsData allStatsData : JsObj) : FansRec :=
  let combinedData := jsMerge (jsMerge allStatsData statsData) devsData
  let fans : FansRec := ⟨none, none, none, none⟩
  let fans :=
    if (jsLookup combinedData "fan1").isSome then
      { speed1 := jsLookup combinedData "fan1", speed2 := jsLookup combinedData "fan2",
        speed3 := jsLookup combinedData "fan3", speed4 := jsLookup combinedData "fan4" }
    else if (jsLookup combinedData "fan_speed_in").isSome then
      { fans with
        speed1 := jsLookup combinedData "fan_speed_in",
        speed2 := jsLookup combinedData "fan_speed_out" }
    else if (jsLookup combinedData "Fan1").isSome then
      { speed1 := jsLookup combinedData "Fan1", speed2 := jsLookup combinedData "Fan2",
        speed3 := jsLookup combinedData "Fan3", speed4 := jsLookup combinedData "Fan4" }
    else if (jsLookup combinedData "Fan Speed In").isSome then
      { fans with
        speed1 := jsLookup combinedData "Fan Speed In",
        speed2 := jsLookup combinedData "Fan Speed Out" }
    else fans
  if fans.speed1 = none then List.foldl fanSearchStep fans combinedData else fans

/-- The CGMiner fallback step of `getMinerStats` (server.js lines
1212-1216): when the chip temperature is still unresolved (`null` or `0`)
after the GraphQL extraction, both the temperature record and the fan
record are replaced by the protocol-client extraction results. -/
def applyCGMinerFallback (temps : TempsRec) (fans : FansRec)
    (statsData devsData allStatsData : JsObj) : TempsRec × FansRec :=
  if temps.chip = none ∨ temps.chip = some 0 then
    (extractTemperatures statsData devsData allStatsData,
     extractFanSpeeds statsData devsData allStatsData)
  else (temps, fans)

/-!
## Claim theorems: C5, C6, C10
-/

/-- C5, counterexample: the seventh pattern family — numeric fields merely
in the plausible 20-100 value range with non-excluded names — only logs
candidates and commits nothing: on an input exhibiting only such a field
(`ambient = 45`), `extractTemperatures` returns every board slot and the
chip temperature as null, so no family input of this kind can produce the
non-null chip/board values the claim demands for all seven families. -/
theorem extractTemperatures_family7_counterexample :
    extractTemperatures [("ambient", 45)] [] [] = ⟨none, none, none, none⟩ ∧
    (extractTemperatures [("ambient", 45)] [] []).chip = none := by
  refine ⟨by decide, by decide⟩

/-- C5 (amended): for each of the six value-committing pattern families, a
synthetic input exhibiting only that family's field names makes that
family's guard (and no earlier one) fire and yields a non-null chip
temperature consistent with the input, with non-null board temperatures
for the board-carrying families (1: `temp_chip_N`/`temp_pcb_N`; 2:
`tempN`/`temp`; 3: `temp2_N`; 5: `chain_tempN`; 6: generic `*temp*` scan —
family 4, a bare `Temperature` field, yields the chip value only); the
seventh, value-range family commits nothing (see the counterexample). -/
theorem extractTemperatures_pattern_families :
    (hasTempChipPattern [("temp_chip_1", 70), ("temp_chip_2", 72), ("temp_chip_3", 68),
        ("temp_pcb_1", 60), ("temp_pcb_2", 62), ("temp_pcb_3", 58)] = true ∧
      extractTemperatures [("temp_chip_1", 70), ("temp_chip_2", 72), ("temp_chip_3", 68),
        ("temp_pcb_1", 60), ("temp_pcb_2", 62), ("temp_pcb_3", 58)] [] []
        = ⟨some 60, some 62, some 58, some 72⟩) ∧
    (hasTempChipPattern [("temp1", 61), ("temp2", 63), ("temp3", 60), ("temp", 65)] = false ∧
      hasTemp1Pattern [("temp1", 61), ("temp2", 63), ("temp3", 60), ("temp", 65)] = true ∧
      extractTemperatures [("temp1", 61), ("temp2", 63), ("temp3", 60), ("temp", 65)] [] []
        = ⟨some 61, some 63, some 60, some 65⟩) ∧
    (hasTempChipPattern [("temp2_1", 59), ("temp2_2", 64), ("temp2_3", 57)] = false ∧
      hasTemp1Pattern [("temp2_1", 59), ("temp2_2", 64), ("temp2_3", 57)] = false ∧
      hasTemp2Pattern [("temp2_1", 59), ("temp2_2", 64), ("temp2_3", 57)] = true ∧
      extractTemperatures [("temp2_1", 59), ("temp2_2", 64), ("temp2_3", 57)] [] []
        = ⟨some 59, some 64, some 57, some 64⟩) ∧
    (hasTempChipPattern [("Temperature", 58)] = false ∧
      hasTemp1Pattern [("Temperature", 58)] = false ∧
      hasTemp2Pattern [("Temperature", 58)] = false ∧
      hasTemperaturePattern [("Temperature", 58)] = true ∧
      extractTemperatures [("Temperature", 58)] [] [] = ⟨none, none, none, some 58⟩) ∧
    (hasTempChipPattern [("chain_temp1", 50), ("chain_temp2", 52), ("chain_temp3", 54)] = false ∧
      hasTemp1Pattern [("chain_temp1", 50), ("chain_temp2", 52), ("chain_temp3", 54)] = false ∧
      hasTemp2Pattern [("chain_temp1", 50), ("chain_temp2", 52), ("chain_temp3", 54)] = false ∧
      hasTemperaturePattern [("chain_temp1", 50), ("chain_temp2", 52), ("chain_temp3", 54)] = false ∧
      hasChainPattern [("chain_temp1", 50), ("chain_temp2", 52), ("chain_temp3", 54)] = true ∧
      extractTemperatures [("chain_temp1", 50), ("chain_temp2", 52), ("chain_temp3", 54)] [] []
        = ⟨some 50, some 52, some 54, some 54⟩) ∧
    (hasTempChipPattern [("board1_temp", 55), ("board2_temp", 58), ("chiptemp", 63)] = false ∧
      hasTemp1Pattern [("board1_temp", 55), ("board2_temp", 58), ("chiptemp", 63)] = false ∧
      hasTemp2Pattern [("board1_temp", 55), ("board2_temp", 58), ("chiptemp", 63)] = false ∧
      hasTemperaturePattern [("board1_temp", 55), ("board2_temp", 58), ("chiptemp", 63)] = false ∧
      hasChainPattern [("board1_temp", 55), ("board2_temp", 58), ("chiptemp", 63)] = false ∧
      extractTemperatures [("board1_temp", 55), ("board2_temp", 58), ("chiptemp", 63)] [] []
        = ⟨some 55, some 58, none, some 63⟩) := by
  refine ⟨⟨by decide, by decide⟩, ⟨by decide, by decide, by decide⟩,
    ⟨by decide, by decide, by decide, by decide⟩,
    ⟨by decide, by decide, by decide, by decide, by decide⟩,
    ⟨by decide, by decide, by decide, by decide, by decide, by decide⟩,
    ⟨by decide, by decide, by decide, by decide, by decide, by decide⟩⟩

/-- C6: for every well-formed protocol reply — a JSON payload (which as
JSON text contains no literal NUL character) followed by the null-byte
terminator — the client's cleaning step `data.replace(/\0/g, '')` yields
exactly the payload, the same string as stripping the terminator, and
therefore every parse function produces the same parsed object on both. -/
theorem cleanMinerResponse_parse_eq (α : Type) (parse : List Char → α)
    (payload : List Char) (hnn : ∀ c ∈ payload, c ≠ nullChar) :
    cleanMinerResponse (payload ++ [nullChar]) = payload ∧
    stripTrailingNulls (payload ++ [nullChar]) = payload ∧
    parse (cleanMinerResponse (payload ++ [nullChar]))
      = parse (stripTrailingNulls (payload ++ [nullChar])) := by
  have h1 : cleanMinerResponse (payload ++ [nullChar]) = payload := by
    unfold cleanMinerResponse
    rw [List.filter_append]
    have h0 : List.filter (fun c => c ≠ nullChar) [nullChar] = [] := by simp
    rw [h0, List.append_nil, List.filter_eq_self]
    intro a ha
    simpa using hnn a ha
  have h2 : stripTrailingNulls (payload ++ [nullChar]) = payload := by
    unfold stripTrailingNulls
    rw [List.reverse_append]
    simp only [List.reverse_cons, List.reverse_nil, List.nil_append, List.singleton_append,
      List.dropWhile_cons]
    simp only [decide_eq_true_eq, if_pos rfl]
    have hdw : List.dropWhile (fun c => c = nullChar) payload.reverse = payload.reverse := by
      cases hrev : payload.reverse with
      | nil => rfl
      | cons c rest =>
        have hc : c ∈ payload := by
          rw [← List.mem_reverse, hrev]
          exact List.mem_cons_self c rest
        rw [List.dropWhile_cons]
        simp [hnn c hc]
    rw [hdw]
    simp
  exact ⟨h1, h2, by rw [h1, h2]⟩

/-- C6 witness: the reply `[1,2]` followed by the NUL terminator, with the
identity parse function. -/
theorem cleanMinerResponse_parse_eq_witness :
    cleanMinerResponse ("[1,2]".toList ++ [nullChar]) = "[1,2]".toList ∧
    stripTrailingNulls ("[1,2]".toList ++ [nullChar]) = "[1,2]".toList ∧
    id (cleanMinerResponse ("[1,2]".toList ++ [nullChar]))
      = id (stripTrailingNulls ("[1,2]".toList ++ [nullChar])) :=
  cleanMinerResponse_parse_eq (List Char) id "[1,2]".toList (by decide)

/-- C10: whenever the GraphQL-derived chip temperature is unresolved
(`null` or `0`), the fallback step of `getMinerStats` replaces both the
temperature record and the fan record — including any GraphQL-derived fan
speeds — by the protocol-client extraction results. -/
theorem applyCGMinerFallback_replaces_fans (temps : TempsRec) (fans : FansRec)
    (statsData devsData allStatsData : JsObj)
    (h : temps.chip = none ∨ temps.chip = some 0) :
    applyCGMinerFallback temps fans statsData devsData allStatsData
      = (extractTemperatures statsData devsData allStatsData,
         extractFanSpeeds statsData devsData allStatsData) := by
  unfold applyCGMinerFallback
  rw [if_pos h]

/-- C10 witness: GraphQL found two fan speeds but no chip temperature; the
returned snapshot carries the CGMiner-extracted fan record (here a single
`fan1` reading) instead of the GraphQL one. -/
theorem applyCGMinerFallback_replaces_fans_witness :
    applyCGMinerFallback ⟨none, none, none, none⟩ ⟨some 5000, some 5100, none, none⟩
        [("temp1", 60), ("fan1", 4000)] [] []
      = (extractTemperatures [("temp1", 60), ("fan1", 4000)] [] [],
         extractFanSpeeds [("temp1", 60), ("fan1", 4000)] [] []) ∧
    extractFanSpeeds [("temp1", 60), ("fan1", 4000)] [] []
      = ⟨some 4000, none, none, none⟩ :=
  ⟨applyCGMinerFallback_replaces_fans ⟨none, none, none, none⟩
      ⟨some 5000, some 5100, none, none⟩ [("temp1", 60), ("fan1", 4000)] [] []
      (Or.inl rfl),
   by decide⟩
